import Mathlib

/-!
Verification development for the SDE VM ownership-arbitration layer
(`msm/sde/sde_vm.h`): the data model (`sde_vm_irq_entry`, `sde_vm_irq_desc`,
`sde_vm_ops`, `sde_vm`), the inline arbitration-facade functions
(`sde_vm_is_enabled`, `sde_vm_lock`, `sde_vm_unlock`, `sde_vm_get_ops`) for
both the feature-enabled and feature-disabled builds, and a model of the
resource ledger and per-role operation hooks whose implementations live
behind the `sde_vm_ops` function table.
-/

set_option autoImplicit false

/-- Error kinds of the ownership-arbitration layer (spec section 7). -/
inductive VmError where
  | OwnershipViolation
  | ResourceLendFailure
  | ResourceMismatch
  | ClientNotReady
  | InvalidTransition
  | NotificationUnmatched
deriving DecidableEq

/-- One VM irq specification: hypervisor-assigned label plus the linux mapped
irq number (struct `sde_vm_irq_entry`). -/
structure sde_vm_irq_entry where
  label : Nat
  irq : Nat
deriving DecidableEq

/-- List of IRQs to be handled (struct `sde_vm_irq_desc`); the count field
`n_irq` of the C struct is the length of `irq_entries`. -/
structure sde_vm_irq_desc where
  n_irq : Nat
  irq_entries : List sde_vm_irq_entry
deriving DecidableEq

/-- Resource ledger of one VM session: the bookkeeping fields of
struct `sde_vm` (`vm_res_lock` modelled as a held-flag,
`mem_notification_cookie`, `n_irq_lent`, `io_mem_handle`) extended with the
list of currently-lent IRQ entries that `n_irq_lent` counts. -/
structure Ledger where
  vm_res_lock : Bool
  mem_notification_cookie : Option Nat
  n_irq_lent : Int
  lent_irqs : List sde_vm_irq_entry
  io_mem_handle : Option Int
deriving DecidableEq

/-- The initial (pre-acquire) ledger: nothing lent, no handle, no cookie. -/
def init_ledger : Ledger :=
  { vm_res_lock := false
    mem_notification_cookie := none
    n_irq_lent := 0
    lent_irqs := []
    io_mem_handle := none }

/-- Hypervisor resource-manager behaviour, abstracted: whether each IRQ-label
lend succeeds, the result of a memory lend, the cookie registered for the
pending notification, whether the memory reclaim succeeds, and the IRQ set
the hypervisor confirms on reclaim. -/
structure Hyp where
  irq_ok : Nat → Bool
  mem_lend : Option Int
  lend_cookie : Nat
  mem_reclaim_ok : Bool
  reclaim_result : List sde_vm_irq_entry

/-- Modelled from the spec: lend a single IRQ entry to the target VM
(`lend_irqs` body, one loop iteration); appends the entry to the lent list
and increments `n_irq_lent`. The implementation behind the `sde_vm_ops`
hooks is not under `src/`. -/
def lend_one (e : sde_vm_irq_entry) (L : Ledger) : Ledger :=
  { L with lent_irqs := L.lent_irqs ++ [e], n_irq_lent := L.n_irq_lent + 1 }

/-- Modelled from the spec: undo the most recent single-IRQ lend (rollback
step of `lend_irqs`). -/
def reclaim_last (L : Ledger) : Ledger :=
  { L with lent_irqs := L.lent_irqs.dropLast, n_irq_lent := L.n_irq_lent - 1 }

/-- Modelled from the spec: roll back the last `k` single-IRQ lends. -/
def rollback_n : Nat → Ledger → Ledger
  | 0, L => L
  | k + 1, L => rollback_n k (reclaim_last L)

/-- Modelled from the spec: the lend loop of `lend_irqs`. `k` counts the
entries already lent by this call; when the hypervisor rejects an entry,
the entries already lent in this call are rolled back before the error is
returned (no partial leakage across a single call). -/
def lend_go (hok : Nat → Bool) : List sde_vm_irq_entry → Nat → Ledger →
    Except VmError Unit × Ledger
  | [], _, L => (Except.ok (), L)
  | e :: rest, k, L =>
    if hok e.label then lend_go hok rest (k + 1) (lend_one e L)
    else (Except.error VmError.ResourceLendFailure, rollback_n k L)

/-- Modelled from the spec: `lend_irqs(list)` — request the hypervisor lend
the given IRQ labels; on success increment `n_irq_lent` by the length of the
list, on partial failure roll back the already-lent entries of this call.
The implementation behind the `sde_vm_ops` hooks is not under `src/`. -/
def lend_irqs (hok : Nat → Bool) (lst : List sde_vm_irq_entry) (L : Ledger) :
    Except VmError Unit × Ledger :=
  lend_go hok lst 0 L

/-- Modelled from the spec: `vm_acquire` for the trusted role — lend IRQs
first, then lend the I/O memory range; a memory-lend failure triggers an
automatic reclaim of the IRQs just lent, so a failed acquire leaves the
ledger unchanged. On success the notification cookie is registered. -/
def trusted_acquire (h : Hyp) (hw_desc : List sde_vm_irq_entry) (L : Ledger) :
    Except VmError Unit × Ledger :=
  match lend_irqs h.irq_ok hw_desc L with
  | (Except.error e, L1) => (Except.error e, L1)
  | (Except.ok _, L1) =>
    match h.mem_lend with
    | some hd =>
      (Except.ok (),
        { L1 with io_mem_handle := some hd
                  mem_notification_cookie := some h.lend_cookie })
    | none =>
      (Except.error VmError.ResourceLendFailure, rollback_n hw_desc.length L1)

/-- Modelled from the spec: `vm_release` for the trusted role — reclaim the
I/O memory first, then reclaim the IRQs (reverse order of acquire); the IRQ
reclaim succeeds only when the hypervisor confirms exactly the
currently-lent set, and on mismatch the count is not decremented
(`ResourceMismatch`, session considered suspect). -/
def trusted_release (h : Hyp) (L : Ledger) : Except VmError Unit × Ledger :=
  if h.mem_reclaim_ok = false then (Except.error VmError.ResourceMismatch, L)
  else
    let L1 : Ledger := { L with io_mem_handle := none }
    if h.reclaim_result = L1.lent_irqs then
      (Except.ok (),
        { L1 with lent_irqs := []
                  n_irq_lent := L1.n_irq_lent - L1.lent_irqs.length
                  mem_notification_cookie := none })
    else (Except.error VmError.ResourceMismatch, L1)

/-- Modelled from the spec: `vm_owns_hw` for the trusted role — true iff the
ledger currently reflects full ownership: all expected IRQs lent and the
I/O memory handle held. -/
def trusted_owns_hw (hw_desc : List sde_vm_irq_entry) (L : Ledger) : Bool :=
  decide (L.lent_irqs = hw_desc) && L.io_mem_handle.isSome

/-- Modelled from the spec: `vm_prepare_commit` for the trusted role — must
fail with `OwnershipViolation` when `vm_owns_hw` is false; the atomic state
argument is opaque to the ownership check. -/
def trusted_prepare_commit (hw_desc : List sde_vm_irq_entry) (st : Nat)
    (L : Ledger) : Except VmError Unit :=
  if trusted_owns_hw hw_desc L then Except.ok ()
  else Except.error VmError.OwnershipViolation

/-- Primary-role descriptor (struct `sde_vm_primary`): base ledger, the
cached IRQ list used to validate reclaim, and the ownership bookkeeping
flag the primary role consults instead of a hypervisor call. -/
structure sde_vm_primary_model where
  base : Ledger
  irq_desc : List sde_vm_irq_entry
  hw_owned : Bool
deriving DecidableEq

/-- Modelled from the spec: `vm_owns_hw` for the primary role — bookkeeping
only, the primary VM is the default owner. -/
def primary_owns_hw (p : sde_vm_primary_model) : Bool :=
  p.hw_owned

/-- Modelled from the spec: `vm_prepare_commit` for the primary role — must
fail with `OwnershipViolation` when `vm_owns_hw` is false. -/
def primary_prepare_commit (p : sde_vm_primary_model) (st : Nat) :
    Except VmError Unit :=
  if primary_owns_hw p then Except.ok ()
  else Except.error VmError.OwnershipViolation

/-- Modelled from the spec: `vm_acquire` for the primary role — bookkeeping
only (mark ownership), no hypervisor call; the base ledger is untouched. -/
def primary_acquire (p : sde_vm_primary_model) :
    Except VmError Unit × sde_vm_primary_model :=
  (Except.ok (), { p with hw_owned := true })

/-- Modelled from the spec: `vm_release` for the primary role — mark the
hardware released so a trusted session can proceed; the base ledger is
untouched. -/
def primary_release (p : sde_vm_primary_model) :
    Except VmError Unit × sde_vm_primary_model :=
  (Except.ok (), { p with hw_owned := false })

/-- Modelled from the spec: `on_notification(cookie)` of the notification
bridge — an incoming hypervisor notification is correlated by exact match
against the single outstanding cookie; a match completes the pending
operation (clearing the cookie slot), a mismatch is dropped and the ledger
is left untouched. -/
def on_notification (c : Nat) (L : Ledger) : Ledger :=
  match L.mem_notification_cookie with
  | some c0 => if c0 = c then { L with mem_notification_cookie := none } else L
  | none => L

/-- Modelled from the spec: `vm_post_commit` — quiesce after the last commit;
does not touch the ledger bookkeeping. -/
def post_commit_model (st : Nat) (L : Ledger) : Except VmError Unit :=
  Except.ok ()

/-- Modelled from the spec: `vm_deinit` — release anything still held,
unregister the pending notification and reset the ledger bookkeeping. -/
def vm_deinit_model (L : Ledger) : Ledger :=
  { L with mem_notification_cookie := none
           n_irq_lent := 0
           lent_irqs := []
           io_mem_handle := none }

/-- Modelled from the spec: `vm_check` — poll the registered clients for
readiness to release; `ClientNotReady` when any reports busy. -/
def vm_check_model (clients_ready : Bool) : Except VmError Unit :=
  if clients_ready then Except.ok () else Except.error VmError.ClientNotReady

/-- Modelled from the spec: `vm_client_pre_release` — broadcast to clients;
no ledger mutation. -/
def client_pre_release_model (L : Ledger) : Except VmError Unit × Ledger :=
  (Except.ok (), L)

/-- Modelled from the spec: `vm_client_post_acquire` — broadcast to clients;
no ledger mutation. -/
def client_post_acquire_model (L : Ledger) : Except VmError Unit × Ledger :=
  (Except.ok (), L)

/-- Modelled from the spec: `vm_request_valid` — delegate the (old, new)
request-state pair to the injected legality table; illegal pairs are
rejected without side effects. -/
def request_valid_model (tbl : Nat → Nat → Bool) (old_st new_st : Nat) :
    Except VmError Unit :=
  if tbl old_st new_st then Except.ok ()
  else Except.error VmError.InvalidTransition

/-- VM specific function hooks (struct `sde_vm_ops`): one implementation per
role, dispatched through the installed descriptor. The hooks act on the
ledger model; the opaque `drm_atomic_state` and `sde_crtc_vm_req` arguments
are modelled as naturals. -/
structure sde_vm_ops where
  vm_acquire : Ledger → Except VmError Unit × Ledger
  vm_release : Ledger → Except VmError Unit × Ledger
  vm_owns_hw : Ledger → Bool
  vm_prepare_commit : Nat → Ledger → Except VmError Unit
  vm_post_commit : Nat → Ledger → Except VmError Unit
  vm_deinit : Ledger → Ledger
  vm_check : Except VmError Unit
  vm_client_pre_release : Ledger → Except VmError Unit × Ledger
  vm_client_post_acquire : Ledger → Except VmError Unit × Ledger
  vm_request_valid : Nat → Nat → Except VmError Unit

/-- The trusted role's operation table, assembled from the modelled hooks. -/
def trusted_ops_table (h : Hyp) (hw_desc : List sde_vm_irq_entry)
    (clients_ready : Bool) (tbl : Nat → Nat → Bool) : sde_vm_ops :=
  { vm_acquire := trusted_acquire h hw_desc
    vm_release := trusted_release h
    vm_owns_hw := trusted_owns_hw hw_desc
    vm_prepare_commit := fun st L => trusted_prepare_commit hw_desc st L
    vm_post_commit := post_commit_model
    vm_deinit := vm_deinit_model
    vm_check := vm_check_model clients_ready
    vm_client_pre_release := client_pre_release_model
    vm_client_post_acquire := client_post_acquire_model
    vm_request_valid := request_valid_model tbl }

/-- VM layer descriptor (struct `sde_vm`): the ledger fields together with
the role's operation hooks. The C struct's back-pointer to `sde_kms` is
omitted (it is only a convenience pointer to the owner). -/
structure sde_vm where
  ledger : Ledger
  vm_ops : sde_vm_ops

/-- Hardware context (the slice of struct `sde_kms` this layer uses): the
`vm` pointer is null exactly when no role descriptor is installed. -/
structure sde_kms where
  vm : Option sde_vm

/-- `sde_vm_is_enabled` (enabled build): `return !!sde_kms->vm;`. -/
def sde_vm_is_enabled (k : sde_kms) : Bool :=
  k.vm.isSome

/-- `sde_vm_lock` (enabled build): return immediately when `vm` is null,
otherwise take `vm_res_lock` (mutex acquisition modelled as setting the
held-flag). -/
def sde_vm_lock (k : sde_kms) : sde_kms :=
  match k.vm with
  | none => k
  | some v =>
    { k with vm := some { v with ledger := { v.ledger with vm_res_lock := true } } }

/-- `sde_vm_unlock` (enabled build): return immediately when `vm` is null,
otherwise release `vm_res_lock`. -/
def sde_vm_unlock (k : sde_kms) : sde_kms :=
  match k.vm with
  | none => k
  | some v =>
    { k with vm := some { v with ledger := { v.ledger with vm_res_lock := false } } }

/-- `sde_vm_get_ops` (enabled build): null when `vm` is null, otherwise the
address of the installed descriptor's `vm_ops`. -/
def sde_vm_get_ops (k : sde_kms) : Option sde_vm_ops :=
  match k.vm with
  | none => none
  | some v => some v.vm_ops

/-- `sde_vm_primary_init` stub (CONFIG_DRM_SDE_VM disabled): `return 0;`,
the context is untouched. -/
def sde_vm_primary_init_disabled (k : sde_kms) : Int × sde_kms :=
  (0, k)

/-- `sde_vm_trusted_init` stub (CONFIG_DRM_SDE_VM disabled): `return 0;`,
the context is untouched. -/
def sde_vm_trusted_init_disabled (k : sde_kms) : Int × sde_kms :=
  (0, k)

/-- `sde_vm_is_enabled` stub (CONFIG_DRM_SDE_VM disabled): always false. -/
def sde_vm_is_enabled_disabled (k : sde_kms) : Bool :=
  false

/-- `sde_vm_lock` stub (CONFIG_DRM_SDE_VM disabled): empty body. -/
def sde_vm_lock_disabled (k : sde_kms) : sde_kms :=
  k

/-- `sde_vm_unlock` stub (CONFIG_DRM_SDE_VM disabled): empty body. -/
def sde_vm_unlock_disabled (k : sde_kms) : sde_kms :=
  k

/-- `sde_vm_get_ops` stub (CONFIG_DRM_SDE_VM disabled): always NULL. -/
def sde_vm_get_ops_disabled (k : sde_kms) : Option sde_vm_ops :=
  none

/-- One step of the VM layer on the trusted session's ledger: a lock or
unlock of `vm_res_lock`, one invocation of an operation-table hook, or the
arrival of a hypervisor notification. Hooks that mutate the ledger
(`vm_acquire`, `vm_release`, `vm_deinit`) are invoked only while
`vm_res_lock` is held, per the facade's locking discipline; the remaining
hooks (`vm_owns_hw`, `vm_prepare_commit`, `vm_post_commit`, `vm_check`,
`vm_client_pre_release`, `vm_client_post_acquire`, `vm_request_valid`) and
the primary role's bookkeeping-only `vm_acquire`/`vm_release` leave the
ledger bookkeeping untouched. -/
inductive LedgerStep (hw_desc : List sde_vm_irq_entry) : Ledger → Ledger → Prop where
  | lock (L : Ledger) :
      LedgerStep hw_desc L { L with vm_res_lock := true }
  | unlock (L : Ledger) :
      LedgerStep hw_desc L { L with vm_res_lock := false }
  | acquire (h : Hyp) (L : Ledger) :
      L.vm_res_lock = true →
      LedgerStep hw_desc L (trusted_acquire h hw_desc L).2
  | release (h : Hyp) (L : Ledger) :
      L.vm_res_lock = true →
      LedgerStep hw_desc L (trusted_release h L).2
  | deinit (L : Ledger) :
      L.vm_res_lock = true →
      LedgerStep hw_desc L (vm_deinit_model L)
  | owns_hw_query (L : Ledger) :
      LedgerStep hw_desc L L
  | prepare (st : Nat) (L : Ledger) :
      LedgerStep hw_desc L L
  | post (st : Nat) (L : Ledger) :
      LedgerStep hw_desc L L
  | check (L : Ledger) :
      LedgerStep hw_desc L L
  | pre_release_bcast (L : Ledger) :
      LedgerStep hw_desc L (client_pre_release_model L).2
  | post_acquire_bcast (L : Ledger) :
      LedgerStep hw_desc L (client_post_acquire_model L).2
  | req_valid (old_st new_st : Nat) (L : Ledger) :
      LedgerStep hw_desc L L
  | notify (c : Nat) (L : Ledger) :
      LedgerStep hw_desc L (on_notification c L)
  | primary_acq (p : sde_vm_primary_model) (L : Ledger) :
      p.base = L →
      LedgerStep hw_desc L (primary_acquire p).2.base
  | primary_rel (p : sde_vm_primary_model) (L : Ledger) :
      p.base = L →
      LedgerStep hw_desc L (primary_release p).2.base

/-- Ledger states reachable from the initial (post-init) ledger by steps of
the VM layer. -/
inductive LedgerReachable (hw_desc : List sde_vm_irq_entry) : Ledger → Prop where
  | init : LedgerReachable hw_desc init_ledger
  | step {L L' : Ledger} :
      LedgerReachable hw_desc L → LedgerStep hw_desc L L' →
      LedgerReachable hw_desc L'

/-- The IRQ list of the spec's worked scenario:
`[(label=7, irq=42), (label=9, irq=55)]`. -/
def scenario_desc : List sde_vm_irq_entry :=
  [⟨7, 42⟩, ⟨9, 55⟩]

/-- Hypervisor behaviour where every lend succeeds; handle 11, cookie 99. -/
def hyp_lend_ok : Hyp :=
  { irq_ok := fun _ => true
    mem_lend := some 11
    lend_cookie := 99
    mem_reclaim_ok := true
    reclaim_result := [] }

/-- Hypervisor behaviour that confirms the scenario IRQ list on reclaim. -/
def hyp_reclaim_ok : Hyp :=
  { irq_ok := fun _ => true
    mem_lend := none
    lend_cookie := 0
    mem_reclaim_ok := true
    reclaim_result := scenario_desc }

/-- A concrete installed VM descriptor (trusted role over the scenario
list), used to evaluate the facade at a non-null context. -/
def sample_vm : sde_vm :=
  { ledger := init_ledger
    vm_ops := trusted_ops_table hyp_lend_ok scenario_desc true (fun _ _ => true) }

/-- A hardware context with the sample descriptor installed. -/
def sample_kms : sde_kms :=
  { vm := some sample_vm }

/-- A hardware context with no descriptor installed (feature inactive). -/
def empty_kms : sde_kms :=
  { vm := none }

/-- A primary-role descriptor that does not currently own the hardware. -/
def unowned_primary : sde_vm_primary_model :=
  { base := init_ledger
    irq_desc := []
    hw_owned := false }

/-- The resource-ledger invariant of the spec: the held IRQ count equals the
length of the currently-lent IRQ list (which also makes it non-negative). -/
def ledger_inv (L : Ledger) : Prop :=
  L.n_irq_lent = L.lent_irqs.length

theorem reclaim_last_lend_one (e : sde_vm_irq_entry) (L : Ledger) :
    reclaim_last (lend_one e L) = L := by
  cases L
  simp [reclaim_last, lend_one]

theorem rollback_n_succ_lend_one (k : Nat) (e : sde_vm_irq_entry) (L : Ledger) :
    rollback_n (k + 1) (lend_one e L) = rollback_n k L := by
  rw [rollback_n, reclaim_last_lend_one]

theorem lend_go_spec (hok : Nat → Bool) (lst : List sde_vm_irq_entry) :
    ∀ (k : Nat) (L : Ledger),
      lend_go hok lst k L =
        if lst.all (fun e => hok e.label) then
          (Except.ok (), { L with lent_irqs := L.lent_irqs ++ lst,
                                  n_irq_lent := L.n_irq_lent + lst.length })
        else (Except.error VmError.ResourceLendFailure, rollback_n k L) := by
  induction lst with
  | nil =>
    intro k L
    simp [lend_go]
  | cons e rest ih =>
    intro k L
    cases he : hok e.label
    · simp [lend_go, he]
    · rw [lend_go]
      simp only [he, if_true]
      rw [ih]
      cases hr : rest.all (fun x => hok x.label)
      · simp [he, hr, rollback_n_succ_lend_one]
      · cases L
        simp [he, hr, lend_one, List.append_assoc, Ledger.mk.injEq]
        ring

theorem rollback_lend_list (lst : List sde_vm_irq_entry) : ∀ (L : Ledger),
    rollback_n lst.length
      { L with lent_irqs := L.lent_irqs ++ lst,
               n_irq_lent := L.n_irq_lent + lst.length } = L := by
  induction lst using List.reverseRecOn with
  | nil =>
    intro L
    simp [rollback_n]
  | append_singleton xs e ih =>
    intro L
    have h1 : ({ L with
                  lent_irqs := L.lent_irqs ++ (xs ++ [e])
                  n_irq_lent := L.n_irq_lent + ((xs ++ [e]).length : Nat) } : Ledger)
        = lend_one e { L with
                        lent_irqs := L.lent_irqs ++ xs
                        n_irq_lent := L.n_irq_lent + xs.length } := by
      cases L
      simp [lend_one, Ledger.mk.injEq, List.append_assoc]
      omega
    rw [h1]
    have h2 : (xs ++ [e]).length = xs.length + 1 := by simp
    rw [h2, rollback_n_succ_lend_one, ih]

theorem trusted_acquire_spec (h : Hyp) (hw_desc : List sde_vm_irq_entry)
    (L : Ledger) :
    (∃ hd, h.mem_lend = some hd ∧
      trusted_acquire h hw_desc L =
        (Except.ok (), { L with
                          lent_irqs := L.lent_irqs ++ hw_desc
                          n_irq_lent := L.n_irq_lent + hw_desc.length
                          io_mem_handle := some hd
                          mem_notification_cookie := some h.lend_cookie })) ∨
    (∃ err, trusted_acquire h hw_desc L = (Except.error err, L)) := by
  unfold trusted_acquire
  rw [lend_irqs, lend_go_spec]
  cases hall : hw_desc.all (fun e => h.irq_ok e.label)
  · right
    refine ⟨VmError.ResourceLendFailure, ?_⟩
    simp [rollback_n]
  · cases hm : h.mem_lend with
    | some hd =>
      left
      exact ⟨hd, rfl, rfl⟩
    | none =>
      right
      refine ⟨VmError.ResourceLendFailure, ?_⟩
      simp [rollback_lend_list hw_desc L]

theorem trusted_release_spec (h : Hyp) (L : Ledger) :
    (h.mem_reclaim_ok = true ∧ h.reclaim_result = L.lent_irqs ∧
      trusted_release h L =
        (Except.ok (), { L with
                          lent_irqs := []
                          n_irq_lent := L.n_irq_lent - L.lent_irqs.length
                          io_mem_handle := none
                          mem_notification_cookie := none })) ∨
    ((trusted_release h L).1 = Except.error VmError.ResourceMismatch ∧
      (trusted_release h L).2.n_irq_lent = L.n_irq_lent ∧
      (trusted_release h L).2.lent_irqs = L.lent_irqs ∧
      (trusted_release h L).2.vm_res_lock = L.vm_res_lock ∧
      (trusted_release h L).2.mem_notification_cookie = L.mem_notification_cookie) := by
  unfold trusted_release
  cases hm : h.mem_reclaim_ok
  · right
    simp
  · cases hr : decide (h.reclaim_result = L.lent_irqs)
    · right
      have hne : ¬ (h.reclaim_result = L.lent_irqs) := of_decide_eq_false hr
      simp [hne]
    · left
      have heq : h.reclaim_result = L.lent_irqs := of_decide_eq_true hr
      simp [heq]

theorem on_notification_bookkeeping (c : Nat) (L : Ledger) :
    (on_notification c L).n_irq_lent = L.n_irq_lent ∧
    (on_notification c L).lent_irqs = L.lent_irqs ∧
    (on_notification c L).vm_res_lock = L.vm_res_lock ∧
    (on_notification c L).io_mem_handle = L.io_mem_handle := by
  unfold on_notification
  cases hc : L.mem_notification_cookie with
  | none => simp
  | some c0 =>
    by_cases h : c0 = c <;> simp [h]

theorem ledger_inv_nonneg {L : Ledger} (h : ledger_inv L) : 0 ≤ L.n_irq_lent := by
  rw [h]
  exact Int.ofNat_nonneg _

theorem ledger_inv_acquire {L : Ledger} (hL : ledger_inv L) (h : Hyp)
    (hw_desc : List sde_vm_irq_entry) :
    ledger_inv (trusted_acquire h hw_desc L).2 := by
  rcases trusted_acquire_spec h hw_desc L with ⟨hd, _, heq⟩ | ⟨err, heq⟩
  · rw [heq]
    unfold ledger_inv at hL ⊢
    simp [hL]
  · rw [heq]
    exact hL

theorem ledger_inv_release {L : Ledger} (hL : ledger_inv L) (h : Hyp) :
    ledger_inv (trusted_release h L).2 := by
  rcases trusted_release_spec h L with ⟨_, _, heq⟩ | ⟨_, hn, hl, _, _⟩
  · rw [heq]
    unfold ledger_inv at hL ⊢
    simp [hL]
  · unfold ledger_inv at hL ⊢
    rw [hn, hl, hL]

theorem ledger_inv_notify {L : Ledger} (hL : ledger_inv L) (c : Nat) :
    ledger_inv (on_notification c L) := by
  unfold ledger_inv at hL ⊢
  rw [(on_notification_bookkeeping c L).1, (on_notification_bookkeeping c L).2.1, hL]

theorem ledger_inv_deinit (L : Ledger) : ledger_inv (vm_deinit_model L) := by
  unfold ledger_inv vm_deinit_model
  simp

/-- Claim C2: for every reachable ledger state the held IRQ count
`n_irq_lent` is never negative and always equals the length of the
currently-lent IRQ list, and every step of the VM layer that changes
`n_irq_lent` is taken while the ledger's exclusive lock `vm_res_lock` is
held; the invariant is preserved by every operation in the operation
table. -/
theorem held_irq_count_invariant (hw_desc : List sde_vm_irq_entry) :
    (∀ L, LedgerReachable hw_desc L →
      0 ≤ L.n_irq_lent ∧ L.n_irq_lent = L.lent_irqs.length) ∧
    (∀ L L', LedgerStep hw_desc L L' →
      L'.n_irq_lent ≠ L.n_irq_lent → L.vm_res_lock = true) := by
  have hstep : ∀ L L', LedgerStep hw_desc L L' → ledger_inv L → ledger_inv L' := by
    intro L L' hs hL
    cases hs with
    | lock L =>
      unfold ledger_inv at hL ⊢
      simpa using hL
    | unlock L =>
      unfold ledger_inv at hL ⊢
      simpa using hL
    | acquire h L hlk => exact ledger_inv_acquire hL h hw_desc
    | release h L hlk => exact ledger_inv_release hL h
    | deinit L hlk => exact ledger_inv_deinit L
    | owns_hw_query L => exact hL
    | prepare st L => exact hL
    | post st L => exact hL
    | check L => exact hL
    | pre_release_bcast L => exact hL
    | post_acquire_bcast L => exact hL
    | req_valid old_st new_st L => exact hL
    | notify c L => exact ledger_inv_notify hL c
    | primary_acq p L hp =>
      unfold primary_acquire
      simpa [← hp] using hL
    | primary_rel p L hp =>
      unfold primary_release
      simpa [← hp] using hL
  constructor
  · intro L hr
    have hinv : ledger_inv L := by
      induction hr with
      | init =>
        unfold ledger_inv init_ledger
        simp
      | step hr' hs ih => exact hstep _ _ hs ih
    exact ⟨ledger_inv_nonneg hinv, hinv⟩
  · intro L L' hs hne
    cases hs with
    | lock L => simp at hne
    | unlock L => simp at hne
    | acquire h L hlk => exact hlk
    | release h L hlk => exact hlk
    | deinit L hlk => exact hlk
    | owns_hw_query L => exact absurd rfl hne
    | prepare st L => exact absurd rfl hne
    | post st L => exact absurd rfl hne
    | check L => exact absurd rfl hne
    | pre_release_bcast L => exact absurd rfl hne
    | post_acquire_bcast L => exact absurd rfl hne
    | req_valid old_st new_st L => exact absurd rfl hne
    | notify c L => exact absurd (on_notification_bookkeeping c L).1 hne
    | primary_acq p L hp =>
      rw [primary_acquire] at hne
      simp [← hp] at hne
    | primary_rel p L hp =>
      rw [primary_release] at hne
      simp [← hp] at hne

/-- Claim C2 witness: the invariant evaluated at the initial ledger, via the
reachability theorem. -/
theorem held_irq_count_invariant_witness :
    0 ≤ init_ledger.n_irq_lent ∧
    init_ledger.n_irq_lent = init_ledger.lent_irqs.length :=
  (held_irq_count_invariant scenario_desc).1 init_ledger LedgerReachable.init

/-- Claim C1: for both the primary and the trusted role, `vm_prepare_commit`
invoked while `vm_owns_hw` is false fails with `OwnershipViolation`, and it
never succeeds without current ownership. -/
theorem prepare_commit_requires_ownership (p : sde_vm_primary_model)
    (hw_desc : List sde_vm_irq_entry) (L : Ledger) (st : Nat) :
    (primary_owns_hw p = false →
      primary_prepare_commit p st = Except.error VmError.OwnershipViolation) ∧
    (trusted_owns_hw hw_desc L = false →
      trusted_prepare_commit hw_desc st L =
        Except.error VmError.OwnershipViolation) ∧
    (∀ u, primary_prepare_commit p st = Except.ok u →
      primary_owns_hw p = true) ∧
    (∀ u, trusted_prepare_commit hw_desc st L = Except.ok u →
      trusted_owns_hw hw_desc L = true) := by
  unfold primary_prepare_commit trusted_prepare_commit
  refine ⟨?_, ?_, ?_, ?_⟩
  · intro hfalse
    simp [hfalse]
  · intro hfalse
    simp [hfalse]
  · intro u hok
    cases hp : primary_owns_hw p
    · simp [hp] at hok
    · rfl
  · intro u hok
    cases ht : trusted_owns_hw hw_desc L
    · simp [ht] at hok
    · rfl

/-- Claim C1 witness: a primary role with the ownership flag cleared and a
trusted role whose ledger holds none of the expected resources are both
refused with `OwnershipViolation`. -/
theorem prepare_commit_requires_ownership_witness :
    primary_prepare_commit unowned_primary 0 =
      Except.error VmError.OwnershipViolation ∧
    trusted_prepare_commit scenario_desc 0 init_ledger =
      Except.error VmError.OwnershipViolation :=
  ⟨(prepare_commit_requires_ownership unowned_primary scenario_desc
      init_ledger 0).1 rfl,
   (prepare_commit_requires_ownership unowned_primary scenario_desc
      init_ledger 0).2.1 rfl⟩

/-- Claim C3: `lend_irqs` either succeeds and increments `n_irq_lent` by
exactly the length of the input list, or fails with the ledger left exactly
as it was (any entries lent within the call are rolled back before the
error returns). -/
theorem lend_irqs_all_or_nothing (hok : Nat → Bool)
    (lst : List sde_vm_irq_entry) (L : Ledger) :
    (lend_irqs hok lst L =
        (Except.ok (), { L with
                          lent_irqs := L.lent_irqs ++ lst
                          n_irq_lent := L.n_irq_lent + lst.length }) ∧
      (lend_irqs hok lst L).2.n_irq_lent = L.n_irq_lent + lst.length) ∨
    lend_irqs hok lst L = (Except.error VmError.ResourceLendFailure, L) := by
  rw [lend_irqs, lend_go_spec]
  cases hall : lst.all (fun e => hok e.label)
  · right
    simp [rollback_n]
  · left
    constructor
    · simp
    · simp

/-- Claim C4: a successful `vm_acquire` followed immediately by a successful
`vm_release`, with no intervening commit, returns the ledger to its
pre-acquire state: zero held IRQs, no I/O memory handle and no pending
notification cookie. -/
theorem acquire_release_roundtrip (h1 h2 : Hyp)
    (hw_desc : List sde_vm_irq_entry) (L : Ledger)
    (hn : L.n_irq_lent = 0) (hl : L.lent_irqs = [])
    (hio : L.io_mem_handle = none) (hck : L.mem_notification_cookie = none)
    (hacq : (trusted_acquire h1 hw_desc L).1 = Except.ok ())
    (hrel : (trusted_release h2 (trusted_acquire h1 hw_desc L).2).1 =
      Except.ok ()) :
    (trusted_release h2 (trusted_acquire h1 hw_desc L).2).2 = L := by
  rcases trusted_acquire_spec h1 hw_desc L with ⟨hd, hm, heq⟩ | ⟨err, heq⟩
  · rw [heq] at hrel ⊢
    rcases trusted_release_spec h2
        { L with
           lent_irqs := L.lent_irqs ++ hw_desc
           n_irq_lent := L.n_irq_lent + hw_desc.length
           io_mem_handle := some hd
           mem_notification_cookie := some h1.lend_cookie }
      with ⟨hok2, hmatch, heq2⟩ | ⟨herr, _⟩
    · rw [heq2]
      cases L
      simp_all
    · rw [herr] at hrel
      exact absurd hrel (by simp)
  · rw [heq] at hacq
    exact absurd hacq (by simp)

/-- Claim C4 witness: the round-trip evaluated on the spec's worked
scenario list from the initial ledger. -/
theorem acquire_release_roundtrip_witness :
    (trusted_release hyp_reclaim_ok
      (trusted_acquire hyp_lend_ok scenario_desc init_ledger).2).2 =
      init_ledger :=
  acquire_release_roundtrip hyp_lend_ok hyp_reclaim_ok scenario_desc
    init_ledger rfl rfl rfl rfl rfl rfl

/-- Claim C5: a hypervisor notification whose cookie does not match the
single outstanding cookie stored in the ledger is dropped: no field of the
ledger is modified. -/
theorem notification_cookie_mismatch_dropped (c : Nat) (L : Ledger)
    (h : L.mem_notification_cookie ≠ some c) :
    on_notification c L = L := by
  unfold on_notification
  cases hc : L.mem_notification_cookie with
  | none => rfl
  | some c0 =>
    have hne : ¬ (c0 = c) := by
      intro he
      rw [he] at hc
      exact h hc
    simp [hne]

/-- Claim C5 witness: a stale cookie arriving at the initial ledger (no
outstanding cookie) is dropped without any change. -/
theorem notification_cookie_mismatch_dropped_witness :
    on_notification 3 init_ledger = init_ledger :=
  notification_cookie_mismatch_dropped 3 init_ledger (by simp [init_ledger])

/-- Claim C6: `sde_vm_is_enabled` returns true if and only if a role
descriptor is currently installed in the hardware context (the `vm`
pointer is non-null). -/
theorem is_enabled_iff_descriptor_installed (k : sde_kms) :
    sde_vm_is_enabled k = true ↔ ∃ v, k.vm = some v := by
  unfold sde_vm_is_enabled
  cases hv : k.vm <;> simp [hv]

/-- Claim C6 witness: enabled at a context with the sample descriptor
installed. -/
theorem is_enabled_iff_descriptor_installed_witness :
    sde_vm_is_enabled sample_kms = true :=
  (is_enabled_iff_descriptor_installed sample_kms).mpr ⟨sample_vm, rfl⟩

/-- Claim C7: `sde_vm_get_ops` returns the operation table of the installed
role descriptor when one is installed, and NULL when the feature is
disabled for this context. -/
theorem get_ops_returns_installed_table (k : sde_kms) :
    (∀ v, k.vm = some v → sde_vm_get_ops k = some v.vm_ops) ∧
    (k.vm = none → sde_vm_get_ops k = none) := by
  constructor
  · intro v hv
    simp [sde_vm_get_ops, hv]
  · intro hv
    simp [sde_vm_get_ops, hv]

/-- Claim C7 witness: the sample context yields the installed table; the
empty context yields nothing. -/
theorem get_ops_returns_installed_table_witness :
    sde_vm_get_ops sample_kms = some sample_vm.vm_ops ∧
    sde_vm_get_ops empty_kms = none :=
  ⟨(get_ops_returns_installed_table sample_kms).1 sample_vm rfl,
   (get_ops_returns_installed_table empty_kms).2 rfl⟩

/-- Claim C8: with no descriptor installed, `sde_vm_lock` and
`sde_vm_unlock` are no-ops that change no state; with a descriptor
installed, `sde_vm_lock` acquires and `sde_vm_unlock` releases the
ledger's exclusive lock `vm_res_lock`. -/
theorem lock_unlock_behaviour (k : sde_kms) :
    (k.vm = none → sde_vm_lock k = k ∧ sde_vm_unlock k = k) ∧
    (∀ v, k.vm = some v →
      (sde_vm_lock k).vm =
        some { v with ledger := { v.ledger with vm_res_lock := true } } ∧
      (sde_vm_unlock k).vm =
        some { v with ledger := { v.ledger with vm_res_lock := false } }) := by
  constructor
  · intro hv
    constructor
    · simp [sde_vm_lock, hv]
    · simp [sde_vm_unlock, hv]
  · intro v hv
    constructor
    · simp [sde_vm_lock, hv]
    · simp [sde_vm_unlock, hv]

/-- Claim C8 witness: no-op on the empty context; lock acquisition on the
sample context. -/
theorem lock_unlock_behaviour_witness :
    sde_vm_lock empty_kms = empty_kms ∧
    (sde_vm_lock sample_kms).vm =
      some { sample_vm with
              ledger := { sample_vm.ledger with vm_res_lock := true } } :=
  ⟨((lock_unlock_behaviour empty_kms).1 rfl).1,
   ((lock_unlock_behaviour sample_kms).2 sample_vm rfl).1⟩

/-- Claim C9: in the feature-enabled build the two facade queries agree:
`sde_vm_is_enabled` returns true exactly when `sde_vm_get_ops` returns a
non-null operation table. -/
theorem is_enabled_agrees_with_get_ops (k : sde_kms) :
    sde_vm_is_enabled k = (sde_vm_get_ops k).isSome := by
  cases hv : k.vm <;> simp [sde_vm_is_enabled, sde_vm_get_ops, hv]

/-- Claim C10: with CONFIG_DRM_SDE_VM compiled out, every facade stub is a
safe no-op: both init functions return 0 and install nothing,
`sde_vm_is_enabled` is false, `sde_vm_get_ops` is NULL, and lock/unlock do
nothing. -/
theorem disabled_stubs_are_safe_noops (k : sde_kms) :
    sde_vm_primary_init_disabled k = (0, k) ∧
    sde_vm_trusted_init_disabled k = (0, k) ∧
    sde_vm_is_enabled_disabled k = false ∧
    sde_vm_get_ops_disabled k = none ∧
    sde_vm_lock_disabled k = k ∧
    sde_vm_unlock_disabled k = k :=
  ⟨rfl, rfl, rfl, rfl, rfl, rfl⟩
